import Mathlib

/-! # polykube-operator: node network-identity resolution (`pkg/node/node.go`)

A shallow embedding of the functions of `pkg/node/node.go` and the properties the
specification states about them.

Conventions of the embedding:

* a Go byte slice (`net.IP`, `net.IPMask`, `net.HardwareAddr`) is `Option (List Nat)`,
  `none` being the nil slice;
* a Go function returning `(T, error)` returns `Except String T`, the string being the
  error's message; on every error path of this file the Go code returns a nil `T`;
* the Kubernetes API, the netlink tables and the functions of the package that live in
  other files are the fields of `World`;
* the package-level variable `Conf` is threaded through `LoadConfig` explicitly;
* log output is recorded for `GetIP` and `GetExtIface` (where the specification speaks of
  how a failure is reported) and left out elsewhere, where it cannot change a result.
-/

set_option autoImplicit false

namespace Polykube

/-! ## Data model -/

deriving instance DecidableEq for Except

/-- Go `net.IP`: a byte slice, `none` is nil. -/
abbrev IP := Option (List Nat)

/-- Go `net.IPMask`. -/
abbrev IPMask := Option (List Nat)

/-- Go `net.HardwareAddr`. -/
abbrev HardwareAddr := Option (List Nat)

/-- Go `net.IPNet`. -/
structure IPNet where
  IP : Polykube.IP
  Mask : Polykube.IPMask
deriving DecidableEq

/-- Entry of `v1.NodeStatus.Addresses`; `Type_` is the Go field `Type` (a string type). -/
structure NodeAddress where
  Type_ : String
  Address : String
deriving DecidableEq

/-- Entry of `v1.NodeStatus.Conditions`; `Type_` is the Go field `Type`; both fields are
string types in Go. -/
structure NodeCondition where
  Type_ : String
  Status : String
deriving DecidableEq

/-- The part of `v1.NodeStatus` that is read. -/
structure NodeStatus where
  Addresses : List NodeAddress
  Conditions : List NodeCondition
deriving DecidableEq

/-- The part of `v1.NodeSpec` that is read. -/
structure NodeSpec where
  PodCIDR : String
deriving DecidableEq

/-- The part of `v1.Node` that is read. -/
structure Node where
  Name : String
  Spec : NodeSpec
  Status : NodeStatus
deriving DecidableEq

/-- Constant `v1.NodeInternalIP`. -/
def NodeInternalIP : String := "InternalIP"

/-- Constant `v1.NodeReady`. -/
def NodeReady : String := "Ready"

/-- Constant `v1.ConditionTrue`. -/
def ConditionTrue : String := "True"

/-- Constant `netlink.FAMILY_V4` (`AF_INET`). -/
def FAMILY_V4 : Nat := 2

/-- The attributes of a `netlink.Link` that are read (`Attrs().Index`, `Attrs().Name`). -/
structure Link where
  Index : Int
  Name : String
deriving DecidableEq

/-- A `netlink.Addr`: it embeds a `*net.IPNet`, which `AddrList` always sets. -/
structure Addr where
  IPNet : Polykube.IPNet
  Label : String
deriving DecidableEq

/-- The fields of a `netlink.Route` that matter here; `Dst` carries the route's own
prefix (`none` for the default route). -/
structure Route where
  LinkIndex : Int
  Dst : Option Polykube.IPNet
  Gw : Polykube.IP
deriving DecidableEq

/-- The fields of a `netlink.Neigh` that are read. -/
structure Neigh where
  LinkIndex : Int
  IP : Polykube.IP
  HardwareAddr : Polykube.HardwareAddr
deriving DecidableEq

/-- Struct `types.Iface`, as the composite literal in `GetExtIface` builds it. -/
structure Iface where
  IPNet : Polykube.IPNet
  Link : Polykube.Link
deriving DecidableEq

/-- Struct `types.GwInfo`, as the composite literals in `LoadConfig` build it. -/
structure GwInfo where
  IPNet : Polykube.IPNet
  MAC : Polykube.HardwareAddr
deriving DecidableEq

/-- Struct `Configuration`, as the composite literal in `LoadConfig` builds it. -/
structure Configuration where
  Node : Polykube.Node
  PodCIDR : Polykube.IPNet
  PodGwInfo : Polykube.GwInfo
  ExtIface : Polykube.Iface
  NodeVtepIPNet : Polykube.IPNet
  NodeGwInfo : Polykube.GwInfo
deriving DecidableEq

/-- A `rest.Config`, as far as it is told apart from another. -/
structure RestConfig where
  Host : String
deriving DecidableEq

/-- A `kubernetes.Clientset`, as far as it is told apart from another. -/
structure Clientset where
  Host : String
deriving DecidableEq

/-- One record written to the logger: `l.Error(err, msg, ...)` or `l.V(1).Info(msg, ...)`.
The key/value pairs are left out. -/
structure LogRecord where
  isError : Bool
  err : String
  msg : String
deriving DecidableEq

/-- Record of `l.Error(errors.New(err), msg, ...)`. -/
def LogRecord.error (err msg : String) : LogRecord := ⟨true, err, msg⟩

/-- Record of `l.V(1).Info(msg, ...)`. -/
def LogRecord.info (msg : String) : LogRecord := ⟨false, "", msg⟩

/-- Everything `LoadConfig` reads from outside `node.go`. -/
structure World where
  /-- Function `rest.InClusterConfig()`. -/
  inClusterConfig : Except String RestConfig
  /-- Function `kubernetes.NewForConfig(c)`. -/
  newForConfig : RestConfig → Except String Clientset
  /-- Value `env.Conf.NodeName`. -/
  nodeName : String
  /-- Call `cset.CoreV1().Nodes().Get(ctx, name, opts)`. -/
  nodesGet : Clientset → String → Except String Node
  /-- Function `net.ParseIP`. -/
  parseIP : String → IP
  /-- Function `netlink.LinkList()`. -/
  linkList : Except String (List Link)
  /-- Function `netlink.AddrList(link, family)`. -/
  addrList : Link → Nat → Except String (List Addr)
  /-- Function `netlink.RouteGet(destination)`. -/
  routeGet : IP → Except String (List Route)
  /-- Function `netlink.NeighList(linkIndex, family)`. -/
  neighList : Int → Nat → Except String (List Neigh)
  /-- Function `ParsePodCIDR` of this package (another file). -/
  ParsePodCIDR : Node → Except String IPNet
  /-- Function `CalcPodDefaultGatewayIPNet` of this package (another file). -/
  CalcPodDefaultGatewayIPNet : IPNet → Except String IPNet
  /-- Function `CalcVtepIPNet` of this package (another file). -/
  CalcVtepIPNet : Node → Except String IPNet

/-! ## Standard-library functions on IP addresses -/

/-- Go `len` of a byte slice. -/
def goLen : Option (List Nat) → Nat
  | none => 0
  | some bs => bs.length

/-- The bytes of a slice (none for nil). -/
def goBytes : Option (List Nat) → List Nat
  | none => []
  | some bs => bs

/-- Variable `v4InV6Prefix` of package `net`. -/
def v4InV6Bytes : List Nat := [0, 0, 0, 0, 0, 0, 0, 0, 0, 0, 0xff, 0xff]

/-- Method `net.IP.Equal`: equal byte strings, or a 4-byte address and its 16-byte
IPv4-in-IPv6 form. -/
def IPEqual (ip x : IP) : Bool :=
  if goLen ip = goLen x then
    decide (goBytes ip = goBytes x)
  else if goLen ip = 4 ∧ goLen x = 16 then
    decide ((goBytes x).take 12 = v4InV6Bytes) && decide (goBytes ip = (goBytes x).drop 12)
  else if goLen ip = 16 ∧ goLen x = 4 then
    decide ((goBytes ip).take 12 = v4InV6Bytes) && decide ((goBytes ip).drop 12 = goBytes x)
  else
    false

/-- Function `net.IPv4(a, b, c, d)`: the 16-byte form of the address. -/
def IPv4 (a b c d : Nat) : IP := some (v4InV6Bytes ++ [a, b, c, d])

/-- Value of a decimal digit. -/
def digitVal (c : Char) : Option Nat :=
  if 48 ≤ c.toNat ∧ c.toNat ≤ 57 then some (c.toNat - 48) else none

/-- Decimal value of a non-empty string of digits, read left to right from `acc`. -/
def decimalFrom : Nat → List Char → Option Nat
  | acc, [] => some acc
  | acc, c :: cs =>
    match digitVal c with
    | none => none
    | some d => decimalFrom (acc * 10 + d) cs

/-- One dotted-quad field: one to three digits, no leading zero, at most 255. -/
def parseOctet (cs : List Char) : Option Nat :=
  match cs with
  | [] => none
  | c :: rest =>
    if cs.length > 3 then none
    else if c = '0' ∧ rest ≠ [] then none
    else match decimalFrom 0 cs with
      | none => none
      | some v => if v ≤ 255 then some v else none

/-- The fields of a string split at each dot. -/
def splitDots : List Char → List (List Char)
  | [] => [[]]
  | c :: cs =>
    match splitDots cs with
    | [] => [[]]
    | f :: fs => if c = '.' then [] :: f :: fs else (c :: f) :: fs

/-- What `net.ParseIP` returns on dotted-quad IPv4 text (the 16-byte form) and nil on any
other string. It stands for `net.ParseIP` in the concrete examples; the general theorems
hold for every parser. -/
def parseDottedQuad (s : String) : IP :=
  match (splitDots s.toList).map parseOctet with
  | [some a, some b, some c, some d] => IPv4 a b c d
  | _ => none

/-! ## `GetIP` and `IsReady` -/

/-- The loop of `GetIP` over `n.Status.Addresses`, with the records it logs. -/
def GetIP.loop (parseIP : String → IP) : List NodeAddress → IP × List LogRecord
  | [] => (none, [LogRecord.error "not found" "failed to obtain node IP"])
  | addr :: rest =>
    if addr.Type_ = NodeInternalIP then
      let nodeIP := parseIP addr.Address
      (nodeIP,
        (if nodeIP = none then [LogRecord.error "failed to parse" "skipped node IP"] else [])
          ++ [LogRecord.info "obtained node IP"])
    else
      GetIP.loop parseIP rest

/-- Function `GetIP`: the returned IP and the log records written. -/
def GetIP (parseIP : String → IP) (n : Node) : IP × List LogRecord :=
  GetIP.loop parseIP n.Status.Addresses

/-- The loop of `IsReady` over `n.Status.Conditions`. -/
def IsReady.loop : List NodeCondition → Bool
  | [] => false
  | c :: rest =>
    if c.Type_ = NodeReady ∧ c.Status = ConditionTrue then true else IsReady.loop rest

/-- Function `IsReady`. -/
def IsReady (n : Node) : Bool :=
  IsReady.loop n.Status.Conditions

/-! ## The functions of `node.go` that read the cluster and the host -/

/-- Function `Get`: the API error is replaced by the function's own. -/
def Get (w : World) (cset : Clientset) (name : String) : Except String Node :=
  match w.nodesGet cset name with
  | .error _ => .error "failed to retrieve cluster node info"
  | .ok n => .ok n

/-- The inner loop of `GetExtIface` over the addresses of one link. -/
def GetExtIface.addrLoop (extIfaceIP : IP) (link : Link) : List Addr → Option Iface
  | [] => none
  | addr :: rest =>
    if IPEqual addr.IPNet.IP extIfaceIP then
      some { IPNet := addr.IPNet, Link := link }
    else
      GetExtIface.addrLoop extIfaceIP link rest

/-- The outer loop of `GetExtIface` over the links, with what is returned after it. -/
def GetExtIface.linkLoop (w : World) (extIfaceIP : IP) :
    List Link → Except String Iface × List LogRecord
  | [] =>
    (.error "failed to retrieve cluster node external interface info",
      [LogRecord.error "no interface for the retrieved interface external IP"
        "failed to retrieve cluster node external interface info"])
  | link :: rest =>
    match w.addrList link FAMILY_V4 with
    | .error err =>
      (.error "failed to retrieve the list of the node interface addresses",
        [LogRecord.error err "failed to retrieve the list of the node interface addresses"])
    | .ok addrs =>
      match GetExtIface.addrLoop extIfaceIP link addrs with
      | some extIface =>
        (.ok extIface, [LogRecord.info "obtained cluster node external interface info"])
      | none => GetExtIface.linkLoop w extIfaceIP rest

/-- Function `GetExtIface`: the result and the log records written (those of `GetIP`
first). -/
def GetExtIface (w : World) (n : Node) : Except String Iface × List LogRecord :=
  let extIfaceIP := (GetIP w.parseIP n).1
  let log := (GetIP w.parseIP n).2
  if extIfaceIP = none then
    (.error "failed to extract the IP of the cluster node external interface",
      log ++ [LogRecord.error "no NodeInternalIP found inside node object"
        "failed to extract the IP of the cluster node external interface"])
  else
    match w.linkList with
    | .error err =>
      (.error "failed to retrieve the list of all the cluster node interfaces",
        log ++ [LogRecord.error err
          "failed to retrieve the list of all the cluster node interfaces"])
    | .ok links =>
      ((GetExtIface.linkLoop w extIfaceIP links).1,
        log ++ (GetExtIface.linkLoop w extIfaceIP links).2)

/-- Function `GetDefaultGatewayIPNet`. -/
def GetDefaultGatewayIPNet (w : World) (extIface : Iface) : Except String IPNet :=
  match w.routeGet (IPv4 1 0 0 0) with
  | .error _ =>
    .error "failed to retrieve the default route through the cluster node external interface"
  | .ok routes =>
    if h : routes.length ≠ 1 then
      .error "failed to determine a single default route for the cluster node"
    else
      let route := routes.get ⟨0, by omega⟩
      let routeLI := route.LinkIndex
      let extIfaceLI := extIface.Link.Index
      if routeLI ≠ extIfaceLI then
        .error "the route link index doesn't match the external interface link index"
      else
        .ok { IP := route.Gw, Mask := extIface.IPNet.Mask }

/-- The loop of `GetDefaultGatewayMAC` over the neighbours, with what is returned after
it. -/
def GetDefaultGatewayMAC.loop (gwIP : IP) : List Neigh → Except String HardwareAddr
  | [] =>
    .error
      "failed to retrieve the MAC of the default gateway for the cluster node external interface"
  | neigh :: rest =>
    if IPEqual neigh.IP gwIP then .ok neigh.HardwareAddr
    else GetDefaultGatewayMAC.loop gwIP rest

/-- Function `GetDefaultGatewayMAC`. -/
def GetDefaultGatewayMAC (w : World) (extIface : Iface) (gwIP : IP) :
    Except String HardwareAddr :=
  let extIfaceLI := extIface.Link.Index
  match w.neighList extIfaceLI FAMILY_V4 with
  | .error _ => .error "failed to retrieve the external interface neighbor list"
  | .ok neighs => GetDefaultGatewayMAC.loop gwIP neighs

/-- Function `LoadConfig`, run with the package variable `Conf` holding `Conf`: the
returned error (`none` is nil) and the value of the package variable afterwards. -/
def LoadConfig (w : World) (Conf : Option Configuration) :
    Option String × Option Configuration :=
  match w.inClusterConfig with
  | .error err => (some err, Conf)
  | .ok clusterConfig =>
  match w.newForConfig clusterConfig with
  | .error err => (some err, Conf)
  | .ok cset =>
  let name := w.nodeName
  match Get w cset name with
  | .error err => (some err, Conf)
  | .ok node =>
  match w.ParsePodCIDR node with
  | .error err => (some err, Conf)
  | .ok podCIDR =>
  match w.CalcPodDefaultGatewayIPNet podCIDR with
  | .error err => (some err, Conf)
  | .ok podGwIPNet =>
  let podGwInfo : GwInfo := { IPNet := podGwIPNet, MAC := none }
  match (GetExtIface w node).1 with
  | .error err => (some err, Conf)
  | .ok extIface =>
  match w.CalcVtepIPNet node with
  | .error err => (some err, Conf)
  | .ok nodeVtepIPNet =>
  match GetDefaultGatewayIPNet w extIface with
  | .error err => (some err, Conf)
  | .ok nodeGwIPNet =>
  match GetDefaultGatewayMAC w extIface nodeGwIPNet.IP with
  | .error err => (some err, Conf)
  | .ok nodeGwMAC =>
  let nodeGwInfo : GwInfo := { IPNet := nodeGwIPNet, MAC := nodeGwMAC }
  (none, some {
    Node := node
    PodCIDR := podCIDR
    PodGwInfo := podGwInfo
    ExtIface := extIface
    NodeVtepIPNet := nodeVtepIPNet
    NodeGwInfo := nodeGwInfo })

/-! ## Concrete inputs used in the examples -/

/-- Interface `lo`, index 1. -/
def lo : Link := { Index := 1, Name := "lo" }

/-- Interface `eth0`, index 2. -/
def eth0 : Link := { Index := 2, Name := "eth0" }

/-- Address 10.0.0.5/24 as netlink reports it (4-byte form). -/
def net10_0_0_5 : IPNet := { IP := some [10, 0, 0, 5], Mask := some [255, 255, 255, 0] }

/-- Address 127.0.0.1/8 as netlink reports it. -/
def net127_0_0_1 : IPNet := { IP := some [127, 0, 0, 1], Mask := some [255, 0, 0, 0] }

/-- The IPv4 addresses bound to each interface of the example host: 10.0.0.5/24 on
index 2 (`eth0`), 127.0.0.1/8 on any other. -/
def hostAddrs1 (l : Link) : List Addr :=
  if l.Index = 2 then [{ IPNet := net10_0_0_5, Label := "eth0" }]
  else [{ IPNet := net127_0_0_1, Label := "lo" }]

/-- A node whose only address is the internal IP 10.0.0.5. -/
def node1 : Node :=
  { Name := "node1"
    Spec := { PodCIDR := "10.244.3.0/24" }
    Status :=
      { Addresses := [{ Type_ := "InternalIP", Address := "10.0.0.5" }]
        Conditions := [{ Type_ := "Ready", Status := "True" }] } }

/-- A host with `lo` and `eth0` (bound to 10.0.0.5/24), one default route through `eth0`
via 10.0.0.1, whose MAC is in the neighbour table; every call succeeds. -/
def world1 : World :=
  { inClusterConfig := .ok { Host := "https://10.96.0.1:443" }
    newForConfig := fun c => .ok { Host := c.Host }
    nodeName := "node1"
    nodesGet := fun _ name => if name = "node1" then .ok node1 else .error "not found"
    parseIP := parseDottedQuad
    linkList := .ok [lo, eth0]
    addrList := fun l _ => .ok (hostAddrs1 l)
    routeGet := fun _ => .ok [{ LinkIndex := 2, Dst := none, Gw := some [10, 0, 0, 1] }]
    neighList := fun _ _ =>
      .ok [{ LinkIndex := 2, IP := some [10, 0, 0, 9], HardwareAddr := some [2, 0, 0, 0, 0, 9] },
           { LinkIndex := 2, IP := some [10, 0, 0, 1], HardwareAddr := some [2, 0, 0, 0, 0, 1] }]
    ParsePodCIDR := fun _ =>
      .ok { IP := some [10, 244, 3, 0], Mask := some [255, 255, 255, 0] }
    CalcPodDefaultGatewayIPNet := fun c =>
      .ok { IP := some [10, 244, 3, 1], Mask := c.Mask }
    CalcVtepIPNet := fun _ =>
      .ok { IP := some [10, 18, 0, 5], Mask := some [255, 255, 0, 0] } }

/-- A node with the given address list (name and conditions as `node1`). -/
def nodeWithAddresses (as : List NodeAddress) : Node :=
  { node1 with Status := { node1.Status with Addresses := as } }

/-- A node with the given condition list (name and addresses as `node1`). -/
def nodeWithConditions (cs : List NodeCondition) : Node :=
  { node1 with Status := { node1.Status with Conditions := cs } }

/-- A node whose first internal-IP entry does not parse and whose second one is the
address bound to `eth0`. -/
def nodeBadThenGood : Node :=
  nodeWithAddresses
    [{ Type_ := "InternalIP", Address := "bad" }, { Type_ := "InternalIP", Address := "10.0.0.5" }]

/-- A node with no entry of type internal IP. -/
def nodeNoInternalIP : Node :=
  nodeWithAddresses [{ Type_ := "Hostname", Address := "node1" }]

/-- A node whose only internal-IP entry does not parse. -/
def nodeBadOnly : Node :=
  nodeWithAddresses
    [{ Type_ := "Hostname", Address := "node1" }, { Type_ := "InternalIP", Address := "bad" }]

/-- The external interface of the example host: `eth0` with 10.0.0.5/24. -/
def extIface1 : Iface := { IPNet := net10_0_0_5, Link := eth0 }

/-- The example host when the route lookup returns no route. -/
def worldNoRoute : World :=
  { world1 with routeGet := fun _ => .ok [] }

/-- The example host when the route lookup returns two routes. -/
def worldTwoRoutes : World :=
  { world1 with
    routeGet := fun _ =>
      .ok [{ LinkIndex := 2, Dst := none, Gw := some [10, 0, 0, 1] },
           { LinkIndex := 2, Dst := none, Gw := some [10, 0, 0, 2] }] }

/-- The example host when the neighbour table does not hold the gateway. -/
def worldNoNeigh : World :=
  { world1 with
    neighList := fun _ _ =>
      .ok [{ LinkIndex := 2, IP := some [10, 0, 0, 9], HardwareAddr := some [2, 0, 0, 0, 0, 9] }] }

/-- The values the steps of `LoadConfig` produce, named as its local variables. -/
structure StepResults where
  clusterConfig : RestConfig
  cset : Clientset
  node : Polykube.Node
  podCIDR : Polykube.IPNet
  podGwIPNet : Polykube.IPNet
  extIface : Polykube.Iface
  nodeVtepIPNet : Polykube.IPNet
  nodeGwIPNet : Polykube.IPNet
  nodeGwMAC : Polykube.HardwareAddr
deriving DecidableEq

/-- Every step of `LoadConfig` succeeds, each on the results of the steps before it, with
the results `r`: client construction, `Get`, `ParsePodCIDR`,
`CalcPodDefaultGatewayIPNet`, `GetExtIface`, `CalcVtepIPNet`, `GetDefaultGatewayIPNet`,
`GetDefaultGatewayMAC`. -/
def StepsSucceed (w : World) (r : StepResults) : Prop :=
  w.inClusterConfig = .ok r.clusterConfig
  ∧ w.newForConfig r.clusterConfig = .ok r.cset
  ∧ Get w r.cset w.nodeName = .ok r.node
  ∧ w.ParsePodCIDR r.node = .ok r.podCIDR
  ∧ w.CalcPodDefaultGatewayIPNet r.podCIDR = .ok r.podGwIPNet
  ∧ (GetExtIface w r.node).1 = .ok r.extIface
  ∧ w.CalcVtepIPNet r.node = .ok r.nodeVtepIPNet
  ∧ GetDefaultGatewayIPNet w r.extIface = .ok r.nodeGwIPNet
  ∧ GetDefaultGatewayMAC w r.extIface r.nodeGwIPNet.IP = .ok r.nodeGwMAC

instance (w : World) (r : StepResults) : Decidable (StepsSucceed w r) := by
  unfold StepsSucceed
  infer_instance

/-- The step results on the example host. -/
def steps1 : StepResults :=
  { clusterConfig := { Host := "https://10.96.0.1:443" }
    cset := { Host := "https://10.96.0.1:443" }
    node := node1
    podCIDR := { IP := some [10, 244, 3, 0], Mask := some [255, 255, 255, 0] }
    podGwIPNet := { IP := some [10, 244, 3, 1], Mask := some [255, 255, 255, 0] }
    extIface := extIface1
    nodeVtepIPNet := { IP := some [10, 18, 0, 5], Mask := some [255, 255, 0, 0] }
    nodeGwIPNet := { IP := some [10, 0, 0, 1], Mask := some [255, 255, 255, 0] }
    nodeGwMAC := some [2, 0, 0, 0, 0, 1] }

/-- A configuration published by an earlier run, different from the one the example host
yields. -/
def oldConf : Configuration :=
  { Node := nodeNoInternalIP
    PodCIDR := { IP := some [10, 244, 9, 0], Mask := some [255, 255, 255, 0] }
    PodGwInfo := { IPNet := { IP := some [10, 244, 9, 1], Mask := some [255, 255, 255, 0] },
                   MAC := none }
    ExtIface := { IPNet := net127_0_0_1, Link := lo }
    NodeVtepIPNet := { IP := some [10, 18, 0, 9], Mask := some [255, 255, 0, 0] }
    NodeGwInfo := { IPNet := { IP := some [10, 0, 0, 254], Mask := some [255, 255, 255, 0] },
                    MAC := some [2, 0, 0, 0, 0, 254] } }

/-- The example host when `CalcVtepIPNet` fails and every other step would succeed. -/
def worldVtepFails : World :=
  { world1 with CalcVtepIPNet := fun _ => .error "vtep derivation failed" }

/-- The example host when `CalcVtepIPNet` fails and the route lookup returns two routes:
two steps fail, `CalcVtepIPNet` being the earlier one. -/
def worldVtepAndRoutesFail : World :=
  { worldTwoRoutes with CalcVtepIPNet := fun _ => .error "vtep derivation failed" }

/-! ## `IsReady` -/

theorem IsReady_loop_iff (cs : List NodeCondition) :
    IsReady.loop cs = true ↔
      ∃ c ∈ cs, c.Type_ = NodeReady ∧ c.Status = ConditionTrue := by
  induction cs with
  | nil => simp [IsReady.loop]
  | cons c rest ih =>
    by_cases h : c.Type_ = NodeReady ∧ c.Status = ConditionTrue
    · simp only [IsReady.loop, if_pos h, List.mem_cons, true_iff]
      exact ⟨c, Or.inl rfl, h⟩
    · simp only [IsReady.loop, if_neg h, ih, List.mem_cons]
      constructor
      · rintro ⟨d, hd, hd2⟩
        exact ⟨d, Or.inr hd, hd2⟩
      · rintro ⟨d, hd | hd, hd2⟩
        · exact absurd (hd ▸ hd2) h
        · exact ⟨d, hd, hd2⟩

theorem IsReady_congr (n n2 : Node)
    (h : (∃ c ∈ n2.Status.Conditions, c.Type_ = NodeReady ∧ c.Status = ConditionTrue) ↔
      (∃ c ∈ n.Status.Conditions, c.Type_ = NodeReady ∧ c.Status = ConditionTrue)) :
    IsReady n2 = IsReady n := by
  unfold IsReady
  rw [Bool.eq_iff_iff, IsReady_loop_iff, IsReady_loop_iff]
  exact h

/-- C8: `IsReady n` is true exactly when some condition of the node has type `NodeReady`
and status `ConditionTrue`. So it is false for an empty condition list and for a lone
Ready condition whose status is not `ConditionTrue` (`False`, `Unknown`), and it is the
same for any reordering of the conditions and for any two nodes that carry the same
Ready/True conditions, whatever else they carry. -/
theorem C8_IsReady_iff_ready_condition_true (n : Node) :
    (IsReady n = true ↔
      ∃ c ∈ n.Status.Conditions, c.Type_ = NodeReady ∧ c.Status = ConditionTrue)
    ∧ (n.Status.Conditions = [] → IsReady n = false)
    ∧ (∀ s : String, s ≠ ConditionTrue →
        n.Status.Conditions = [{ Type_ := NodeReady, Status := s }] → IsReady n = false)
    ∧ (∀ n2 : Node, n.Status.Conditions.Perm n2.Status.Conditions →
        IsReady n2 = IsReady n)
    ∧ (∀ n2 : Node,
        (∀ c : NodeCondition, c.Type_ = NodeReady ∧ c.Status = ConditionTrue →
          (c ∈ n2.Status.Conditions ↔ c ∈ n.Status.Conditions)) →
        IsReady n2 = IsReady n) := by
  have hiff := IsReady_loop_iff n.Status.Conditions
  refine ⟨hiff, ?_, ?_, ?_, ?_⟩
  · intro h
    simp [IsReady, h, IsReady.loop]
  · intro s hs h
    have : ¬ (IsReady n = true) := by
      rw [show (IsReady n = true) = (IsReady.loop n.Status.Conditions = true) from rfl,
        hiff, h]
      rintro ⟨c, hc, -, hc2⟩
      simp only [List.mem_singleton] at hc
      subst hc
      exact hs hc2
    simpa using this
  · intro n2 hp
    apply IsReady_congr
    constructor
    · rintro ⟨c, hc, hc2⟩
      exact ⟨c, hp.mem_iff.mpr hc, hc2⟩
    · rintro ⟨c, hc, hc2⟩
      exact ⟨c, hp.mem_iff.mp hc, hc2⟩
  · intro n2 hsame
    apply IsReady_congr
    constructor
    · rintro ⟨c, hc, hc2⟩
      exact ⟨c, (hsame c hc2).mp hc, hc2⟩
    · rintro ⟨c, hc, hc2⟩
      exact ⟨c, (hsame c hc2).mpr hc, hc2⟩

/-- C8 at concrete nodes: Ready/True among other conditions is ready in either order; an
empty list, Ready/False and Ready/Unknown are not. -/
theorem C8_IsReady_witness :
    IsReady (nodeWithConditions
        [{ Type_ := "MemoryPressure", Status := "False" }, { Type_ := "Ready", Status := "True" }])
      = true
    ∧ IsReady (nodeWithConditions
        [{ Type_ := "Ready", Status := "True" }, { Type_ := "MemoryPressure", Status := "False" }])
      = IsReady (nodeWithConditions
        [{ Type_ := "MemoryPressure", Status := "False" }, { Type_ := "Ready", Status := "True" }])
    ∧ IsReady (nodeWithConditions []) = false
    ∧ IsReady (nodeWithConditions [{ Type_ := "Ready", Status := "False" }]) = false
    ∧ IsReady (nodeWithConditions [{ Type_ := "Ready", Status := "Unknown" }]) = false
    ∧ IsReady (nodeWithConditions [{ Type_ := "MemoryPressure", Status := "True" }]) = false :=
  ⟨(C8_IsReady_iff_ready_condition_true _).1.mpr
      ⟨{ Type_ := "Ready", Status := "True" }, by decide, by decide, by decide⟩,
    (C8_IsReady_iff_ready_condition_true _).2.2.2.1 _ (by decide),
    (C8_IsReady_iff_ready_condition_true _).2.1 rfl,
    (C8_IsReady_iff_ready_condition_true _).2.2.1 "False" (by decide) rfl,
    (C8_IsReady_iff_ready_condition_true _).2.2.1 "Unknown" (by decide) rfl,
    by decide⟩


/-! ## `GetIP` -/

theorem GetIP_loop_skip (parseIP : String → IP) (pre rest : List NodeAddress)
    (hpre : ∀ b ∈ pre, b.Type_ ≠ NodeInternalIP) :
    GetIP.loop parseIP (pre ++ rest) = GetIP.loop parseIP rest := by
  induction pre with
  | nil => rfl
  | cons b pre ih =>
    have hb : b.Type_ ≠ NodeInternalIP := hpre b (List.mem_cons_self _ _)
    simp only [List.cons_append, GetIP.loop, if_neg hb]
    exact ih (fun c hc => hpre c (List.mem_cons_of_mem _ hc))

theorem GetIP_loop_filter (parseIP : String → IP) (as : List NodeAddress) :
    GetIP.loop parseIP (as.filter (fun a => decide (a.Type_ = NodeInternalIP)))
      = GetIP.loop parseIP as := by
  induction as with
  | nil => rfl
  | cons a as ih =>
    by_cases h : a.Type_ = NodeInternalIP
    · simp [List.filter, h, GetIP.loop]
    · simp only [List.filter, h, decide_False, GetIP.loop, if_false]
      exact ih

theorem GetIP_loop_absent (parseIP : String → IP) (as : List NodeAddress)
    (h : ∀ a ∈ as, a.Type_ ≠ NodeInternalIP) :
    GetIP.loop parseIP as = (none, [LogRecord.error "not found" "failed to obtain node IP"]) := by
  have := GetIP_loop_skip parseIP as [] h
  simpa [GetIP.loop] using this

theorem GetExtIface_of_GetIP_none (w : World) (n : Node)
    (h : (GetIP w.parseIP n).1 = none) :
    (GetExtIface w n).1
      = .error "failed to extract the IP of the cluster node external interface" := by
  simp [GetExtIface, h]

/-- C3 at the failing input: the node lists an internal-IP entry that does not parse
before one that does (10.0.0.5, bound to `eth0`). `GetIP` logs the first as skipped, yet
returns nil instead of the parse of the second, and `GetExtIface` fails although the
external interface exists. -/
theorem C3_GetIP_returns_nil_before_parsable_entry :
    nodeBadThenGood.Status.Addresses
      = [{ Type_ := NodeInternalIP, Address := "bad" },
         { Type_ := NodeInternalIP, Address := "10.0.0.5" }]
    ∧ parseDottedQuad "bad" = none
    ∧ parseDottedQuad "10.0.0.5" = IPv4 10 0 0 5
    ∧ (GetIP parseDottedQuad nodeBadThenGood).1 = none
    ∧ LogRecord.error "failed to parse" "skipped node IP"
        ∈ (GetIP parseDottedQuad nodeBadThenGood).2
    ∧ (GetExtIface world1 nodeBadThenGood).1
        = .error "failed to extract the IP of the cluster node external interface"
    ∧ (GetExtIface world1
          (nodeWithAddresses [{ Type_ := NodeInternalIP, Address := "10.0.0.5" }])).1
        = .ok { IPNet := net10_0_0_5, Link := eth0 } := by
  refine ⟨rfl, by decide, by decide, by decide, by decide, by decide, by decide⟩

/-- C4 as written fails: a node without any internal-IP entry and a node whose internal-IP
entry does not parse both make `GetIP` return nil and `GetExtIface` return one and the
same error, so the two failures are not reported as different errors. -/
theorem C4_absent_and_unparsable_same_error :
    (∀ a ∈ nodeNoInternalIP.Status.Addresses, a.Type_ ≠ NodeInternalIP)
    ∧ (∃ a ∈ nodeBadOnly.Status.Addresses,
        a.Type_ = NodeInternalIP ∧ parseDottedQuad a.Address = none)
    ∧ (GetIP parseDottedQuad nodeNoInternalIP).1 = (GetIP parseDottedQuad nodeBadOnly).1
    ∧ (GetExtIface world1 nodeNoInternalIP).1 = (GetExtIface world1 nodeBadOnly).1
    ∧ (GetExtIface world1 nodeBadOnly).1
        = .error "failed to extract the IP of the cluster node external interface" := by
  refine ⟨by decide, by decide, by decide, by decide, by decide⟩

theorem GetIP_loop_first (parseIP : String → IP) (pre post : List NodeAddress)
    (a : NodeAddress) (hpre : ∀ b ∈ pre, b.Type_ ≠ NodeInternalIP)
    (ha : a.Type_ = NodeInternalIP) :
    GetIP.loop parseIP (pre ++ a :: post)
      = (parseIP a.Address,
          (if parseIP a.Address = none then
              [LogRecord.error "failed to parse" "skipped node IP"] else [])
            ++ [LogRecord.info "obtained node IP"]) := by
  rw [GetIP_loop_skip parseIP pre _ hpre]
  simp only [GetIP.loop, if_pos ha]

theorem addresses_absent_or_first (as : List NodeAddress) :
    (∀ a ∈ as, a.Type_ ≠ NodeInternalIP)
    ∨ ∃ (pre post : List NodeAddress) (a : NodeAddress), as = pre ++ a :: post
        ∧ (∀ b ∈ pre, b.Type_ ≠ NodeInternalIP) ∧ a.Type_ = NodeInternalIP := by
  induction as with
  | nil => exact Or.inl (by simp)
  | cons c as ih =>
    by_cases hc : c.Type_ = NodeInternalIP
    · exact Or.inr ⟨[], as, c, rfl, by simp, hc⟩
    · rcases ih with habs | ⟨pre, post, a, hsplit, hpre, ha⟩
      · refine Or.inl ?_
        intro d hd
        rcases List.mem_cons.mp hd with hd | hd
        · exact hd ▸ hc
        · exact habs d hd
      · refine Or.inr ⟨c :: pre, post, a, by simp [hsplit], ?_, ha⟩
        intro d hd
        rcases List.mem_cons.mp hd with hd | hd
        · exact hd ▸ hc
        · exact hpre d hd

/-- C4, amended: `GetIP` returns the parse of the first entry of type `NodeInternalIP` in
the node's address list, ignoring the entries of other types and all later entries; it
returns nil exactly when no entry has type `NodeInternalIP` or when that first entry's
string does not parse. The two failures are not reported as different errors: `GetIP`
returns an address only, nil in both cases, and whenever it returns nil `GetExtIface`
returns the single error "failed to extract the IP of the cluster node external
interface"; only the log records of `GetIP` differ ("not found" alone when absent, "failed
to parse" among them when the first entry of that type does not parse). -/
theorem C4_GetIP_first_internal_and_single_error (w : World) (n : Node) :
    (∀ (pre post : List NodeAddress) (a : NodeAddress),
        n.Status.Addresses = pre ++ a :: post →
        (∀ b ∈ pre, b.Type_ ≠ NodeInternalIP) →
        a.Type_ = NodeInternalIP →
        (GetIP w.parseIP n).1 = w.parseIP a.Address)
    ∧ ((GetIP w.parseIP n).1
        = (GetIP w.parseIP
            { n with Status := { n.Status with
                Addresses := n.Status.Addresses.filter
                  (fun a => decide (a.Type_ = NodeInternalIP)) } }).1)
    ∧ ((GetIP w.parseIP n).1 = none ↔
        ((∀ a ∈ n.Status.Addresses, a.Type_ ≠ NodeInternalIP)
          ∨ ∃ (pre post : List NodeAddress) (a : NodeAddress),
              n.Status.Addresses = pre ++ a :: post
              ∧ (∀ b ∈ pre, b.Type_ ≠ NodeInternalIP)
              ∧ a.Type_ = NodeInternalIP ∧ w.parseIP a.Address = none))
    ∧ ((GetIP w.parseIP n).1 = none →
        (GetExtIface w n).1
          = .error "failed to extract the IP of the cluster node external interface")
    ∧ ((∀ a ∈ n.Status.Addresses, a.Type_ ≠ NodeInternalIP) →
        (GetIP w.parseIP n).2 = [LogRecord.error "not found" "failed to obtain node IP"])
    ∧ (∀ (pre post : List NodeAddress) (a : NodeAddress),
        n.Status.Addresses = pre ++ a :: post →
        (∀ b ∈ pre, b.Type_ ≠ NodeInternalIP) →
        a.Type_ = NodeInternalIP → w.parseIP a.Address = none →
        LogRecord.error "failed to parse" "skipped node IP" ∈ (GetIP w.parseIP n).2) := by
  have hfirst : ∀ (pre post : List NodeAddress) (a : NodeAddress),
      n.Status.Addresses = pre ++ a :: post →
      (∀ b ∈ pre, b.Type_ ≠ NodeInternalIP) →
      a.Type_ = NodeInternalIP →
      (GetIP w.parseIP n).1 = w.parseIP a.Address := by
    intro pre post a hsplit hpre ha
    simp only [GetIP, hsplit]
    rw [GetIP_loop_first w.parseIP pre post a hpre ha]
  have habsent : (∀ a ∈ n.Status.Addresses, a.Type_ ≠ NodeInternalIP) →
      GetIP w.parseIP n = (none, [LogRecord.error "not found" "failed to obtain node IP"]) := by
    intro h
    simp only [GetIP]
    rw [GetIP_loop_absent w.parseIP _ h]
  refine ⟨hfirst, ?_, ⟨?_, ?_⟩, GetExtIface_of_GetIP_none w n, ?_, ?_⟩
  · simp only [GetIP]
    rw [GetIP_loop_filter]
  · intro hnil
    rcases addresses_absent_or_first n.Status.Addresses with habs | ⟨pre, post, a, hs, hp, ha⟩
    · exact Or.inl habs
    · refine Or.inr ⟨pre, post, a, hs, hp, ha, ?_⟩
      rw [← hfirst pre post a hs hp ha]
      exact hnil
  · rintro (habs | ⟨pre, post, a, hs, hp, ha, hparse⟩)
    · rw [habsent habs]
    · rw [hfirst pre post a hs hp ha]
      exact hparse
  · intro h
    rw [habsent h]
  · intro pre post a hsplit hpre ha hparse
    simp only [GetIP, hsplit]
    rw [GetIP_loop_first w.parseIP pre post a hpre ha]
    simp [hparse]

/-- C4, amended, at concrete nodes: the parse of the first internal-IP entry of `node1`
is returned; when the first internal-IP entry does not parse the result is its nil parse
although a later entry parses; a node without such an entry and a node whose entry does
not parse both end in the same error of `GetExtIface`, with different log records of
`GetIP`. -/
theorem C4_GetIP_witness :
    (GetIP world1.parseIP node1).1 = IPv4 10 0 0 5
    ∧ (GetIP world1.parseIP nodeBadThenGood).1 = world1.parseIP "bad"
    ∧ (GetIP world1.parseIP nodeBadThenGood).1 = none
    ∧ (GetIP world1.parseIP nodeNoInternalIP).1 = none
    ∧ (GetExtIface world1 nodeNoInternalIP).1
        = .error "failed to extract the IP of the cluster node external interface"
    ∧ (GetIP world1.parseIP nodeNoInternalIP).2
        = [LogRecord.error "not found" "failed to obtain node IP"]
    ∧ (GetExtIface world1 nodeBadOnly).1
        = .error "failed to extract the IP of the cluster node external interface"
    ∧ LogRecord.error "failed to parse" "skipped node IP"
        ∈ (GetIP world1.parseIP nodeBadOnly).2 :=
  ⟨(C4_GetIP_first_internal_and_single_error world1 node1).1 [] []
      { Type_ := "InternalIP", Address := "10.0.0.5" } rfl (by decide) (by decide),
    (C4_GetIP_first_internal_and_single_error world1 nodeBadThenGood).1 []
      [{ Type_ := "InternalIP", Address := "10.0.0.5" }]
      { Type_ := "InternalIP", Address := "bad" } rfl (by decide) (by decide),
    (C4_GetIP_first_internal_and_single_error world1 nodeBadThenGood).2.2.1.mpr
      (Or.inr ⟨[], [{ Type_ := "InternalIP", Address := "10.0.0.5" }],
        { Type_ := "InternalIP", Address := "bad" }, rfl, by decide, by decide, by decide⟩),
    (C4_GetIP_first_internal_and_single_error world1 nodeNoInternalIP).2.2.1.mpr
      (Or.inl (by decide)),
    (C4_GetIP_first_internal_and_single_error world1 nodeNoInternalIP).2.2.2.1 (by decide),
    (C4_GetIP_first_internal_and_single_error world1 nodeNoInternalIP).2.2.2.2.1 (by decide),
    (C4_GetIP_first_internal_and_single_error world1 nodeBadOnly).2.2.2.1 (by decide),
    (C4_GetIP_first_internal_and_single_error world1 nodeBadOnly).2.2.2.2.2
      [{ Type_ := "Hostname", Address := "node1" }] []
      { Type_ := "InternalIP", Address := "bad" } rfl (by decide) (by decide) (by decide)⟩

/-! ## `GetExtIface` -/

theorem addrLoop_none_iff (x : IP) (link : Link) (as : List Addr) :
    GetExtIface.addrLoop x link as = none ↔ ∀ b ∈ as, IPEqual b.IPNet.IP x = false := by
  induction as with
  | nil => simp [GetExtIface.addrLoop]
  | cons a as ih =>
    cases h : IPEqual a.IPNet.IP x
    · simp [GetExtIface.addrLoop, h, ih]
    · simp [GetExtIface.addrLoop, h]

theorem addrLoop_some (x : IP) (link : Link) (as : List Addr) (i : Iface)
    (h : GetExtIface.addrLoop x link as = some i) :
    i.Link = link ∧ ∃ (apre apost : List Addr) (a : Addr),
      as = apre ++ a :: apost ∧ (∀ b ∈ apre, IPEqual b.IPNet.IP x = false)
        ∧ IPEqual a.IPNet.IP x = true ∧ a.IPNet = i.IPNet := by
  induction as with
  | nil => simp [GetExtIface.addrLoop] at h
  | cons a as ih =>
    cases hx : IPEqual a.IPNet.IP x
    · simp only [GetExtIface.addrLoop, hx, Bool.false_eq_true, if_false] at h
      obtain ⟨hl, apre, apost, a2, hsplit, hpre, ha2, hnet⟩ := ih h
      refine ⟨hl, a :: apre, apost, a2, by simp [hsplit], ?_, ha2, hnet⟩
      intro b hb
      rcases List.mem_cons.mp hb with hb | hb
      · exact hb ▸ hx
      · exact hpre b hb
    · simp only [GetExtIface.addrLoop, hx, if_true, Option.some.injEq] at h
      subst h
      exact ⟨rfl, [], as, a, rfl, by simp, hx, rfl⟩

theorem linkLoop_none (w : World) (x : IP) (addrs : Link → List Addr) (links : List Link)
    (ha : ∀ l ∈ links, w.addrList l FAMILY_V4 = .ok (addrs l))
    (hno : ∀ l ∈ links, ∀ b ∈ addrs l, IPEqual b.IPNet.IP x = false) :
    (GetExtIface.linkLoop w x links).1
      = .error "failed to retrieve cluster node external interface info" := by
  induction links with
  | nil => rfl
  | cons l links ih =>
    have hl := ha l (List.mem_cons_self _ _)
    have hnone := (addrLoop_none_iff x l (addrs l)).mpr (hno l (List.mem_cons_self _ _))
    simp only [GetExtIface.linkLoop, hl, hnone]
    exact ih (fun m hm => ha m (List.mem_cons_of_mem _ hm))
      (fun m hm => hno m (List.mem_cons_of_mem _ hm))

theorem linkLoop_ok (w : World) (x : IP) (addrs : Link → List Addr) (links : List Link)
    (ha : ∀ l ∈ links, w.addrList l FAMILY_V4 = .ok (addrs l)) (i : Iface)
    (h : (GetExtIface.linkLoop w x links).1 = .ok i) :
    ∃ pre post : List Link, links = pre ++ i.Link :: post
      ∧ (∀ l ∈ pre, ∀ b ∈ addrs l, IPEqual b.IPNet.IP x = false)
      ∧ GetExtIface.addrLoop x i.Link (addrs i.Link) = some i := by
  induction links with
  | nil => simp [GetExtIface.linkLoop] at h
  | cons l links ih =>
    have hl := ha l (List.mem_cons_self _ _)
    cases hloop : GetExtIface.addrLoop x l (addrs l) with
    | none =>
      simp only [GetExtIface.linkLoop, hl, hloop] at h
      obtain ⟨pre, post, hsplit, hpre, hfound⟩ :=
        ih (fun m hm => ha m (List.mem_cons_of_mem _ hm)) h
      refine ⟨l :: pre, post, by simp [hsplit], ?_, hfound⟩
      intro m hm
      rcases List.mem_cons.mp hm with hm | hm
      · exact hm ▸ (addrLoop_none_iff x l (addrs l)).mp hloop
      · exact hpre m hm
    | some j =>
      simp only [GetExtIface.linkLoop, hl, hloop, Except.ok.injEq] at h
      subst h
      have hlink := (addrLoop_some x l (addrs l) j hloop).1
      refine ⟨[], links, by simp [hlink], by simp, ?_⟩
      rw [hlink]
      exact hloop

theorem linkLoop_exists (w : World) (x : IP) (addrs : Link → List Addr) (links : List Link)
    (ha : ∀ l ∈ links, w.addrList l FAMILY_V4 = .ok (addrs l))
    (hex : ∃ l ∈ links, ∃ a ∈ addrs l, IPEqual a.IPNet.IP x = true) :
    ∃ i, (GetExtIface.linkLoop w x links).1 = .ok i := by
  cases hres : (GetExtIface.linkLoop w x links).1 with
  | ok i => exact ⟨i, rfl⟩
  | error e =>
    exfalso
    obtain ⟨l, hl, a, hmem, heq⟩ := hex
    induction links with
    | nil => simp at hl
    | cons m links ih =>
      have hm := ha m (List.mem_cons_self _ _)
      cases hloop : GetExtIface.addrLoop x m (addrs m) with
      | some j => simp [GetExtIface.linkLoop, hm, hloop] at hres
      | none =>
        simp only [GetExtIface.linkLoop, hm, hloop] at hres
        rcases List.mem_cons.mp hl with hl | hl
        · subst hl
          have := (addrLoop_none_iff x l (addrs l)).mp hloop a hmem
          rw [heq] at this
          exact Bool.noConfusion this
        · exact ih (fun k hk => ha k (List.mem_cons_of_mem _ hk)) hres hl

theorem GetExtIface_of_links (w : World) (n : Node) (x : List Nat) (links : List Link)
    (hx : (GetIP w.parseIP n).1 = some x) (hl : w.linkList = .ok links) :
    (GetExtIface w n).1 = (GetExtIface.linkLoop w (some x) links).1 := by
  simp [GetExtIface, hx, hl]

/-- C2: when `GetIP n` is a non-nil address `x`, the interface list is read and the
address list of every interface is read, `GetExtIface` succeeds exactly when some
interface has a bound address equal to `x` (in the sense of `net.IP.Equal`). On success
the returned address equals `x`, it is an address of the returned interface, and the pair
is the first match in enumeration order: no address of an earlier interface and no
earlier address of that interface equals `x`; so it is the interface binding `x` when
only one does. When no interface binds `x` it returns the error "failed to retrieve
cluster node external interface info" and no interface. -/
theorem C2_GetExtIface_finds_first_binding (w : World) (n : Node) (x : List Nat)
    (links : List Link) (addrs : Link → List Addr)
    (hx : (GetIP w.parseIP n).1 = some x)
    (hl : w.linkList = .ok links)
    (ha : ∀ l ∈ links, w.addrList l FAMILY_V4 = .ok (addrs l)) :
    ((∃ i, (GetExtIface w n).1 = .ok i) ↔
      ∃ l ∈ links, ∃ a ∈ addrs l, IPEqual a.IPNet.IP (some x) = true)
    ∧ (∀ i, (GetExtIface w n).1 = .ok i →
        IPEqual i.IPNet.IP (some x) = true
        ∧ i.Link ∈ links
        ∧ (∃ a ∈ addrs i.Link, a.IPNet = i.IPNet)
        ∧ (∃ (pre post : List Link) (apre apost : List Addr) (a : Addr),
            links = pre ++ i.Link :: post
            ∧ (∀ l ∈ pre, ∀ b ∈ addrs l, IPEqual b.IPNet.IP (some x) = false)
            ∧ addrs i.Link = apre ++ a :: apost
            ∧ (∀ b ∈ apre, IPEqual b.IPNet.IP (some x) = false)
            ∧ a.IPNet = i.IPNet)
        ∧ (∀ l ∈ links, (∃ a ∈ addrs l, IPEqual a.IPNet.IP (some x) = true) →
            (∀ m ∈ links, (∃ a ∈ addrs m, IPEqual a.IPNet.IP (some x) = true) → m = l) →
            i.Link = l))
    ∧ ((∀ l ∈ links, ∀ a ∈ addrs l, IPEqual a.IPNet.IP (some x) = false) →
        (GetExtIface w n).1
          = .error "failed to retrieve cluster node external interface info") := by
  rw [GetExtIface_of_links w n x links hx hl]
  have key : ∀ i, (GetExtIface.linkLoop w (some x) links).1 = .ok i →
      ∃ (pre post : List Link) (apre apost : List Addr) (a : Addr),
        links = pre ++ i.Link :: post
        ∧ (∀ l ∈ pre, ∀ b ∈ addrs l, IPEqual b.IPNet.IP (some x) = false)
        ∧ addrs i.Link = apre ++ a :: apost
        ∧ (∀ b ∈ apre, IPEqual b.IPNet.IP (some x) = false)
        ∧ a.IPNet = i.IPNet ∧ IPEqual a.IPNet.IP (some x) = true := by
    intro i hi
    obtain ⟨pre, post, hsplit, hpre, hfound⟩ := linkLoop_ok w (some x) addrs links ha i hi
    obtain ⟨-, apre, apost, a, hasplit, hapre, heq, hnet⟩ :=
      addrLoop_some (some x) i.Link (addrs i.Link) i hfound
    exact ⟨pre, post, apre, apost, a, hsplit, hpre, hasplit, hapre, hnet, heq⟩
  refine ⟨⟨?_, linkLoop_exists w (some x) addrs links ha⟩, ?_,
    linkLoop_none w (some x) addrs links ha⟩
  · rintro ⟨i, hi⟩
    obtain ⟨pre, post, apre, apost, a, hsplit, -, hasplit, -, -, heq⟩ := key i hi
    exact ⟨i.Link, by simp [hsplit], a, by simp [hasplit], heq⟩
  · intro i hi
    obtain ⟨pre, post, apre, apost, a, hsplit, hpre, hasplit, hapre, hnet, heq⟩ := key i hi
    have hmem : i.Link ∈ links := by simp [hsplit]
    have hamem : a ∈ addrs i.Link := by simp [hasplit]
    refine ⟨hnet ▸ heq, hmem, ⟨a, hamem, hnet⟩,
      ⟨pre, post, apre, apost, a, hsplit, hpre, hasplit, hapre, hnet⟩, ?_⟩
    intro l _ _ huniq
    exact huniq i.Link hmem ⟨a, hamem, heq⟩

/-- C2 on the example host: the node's only address is the internal IP 10.0.0.5 and
`eth0` is bound to 10.0.0.5/24; `GetExtIface` returns `eth0` with 10.0.0.5/24. -/
theorem C2_GetExtIface_witness :
    (GetIP world1.parseIP node1).1 = some [0, 0, 0, 0, 0, 0, 0, 0, 0, 0, 255, 255, 10, 0, 0, 5]
    ∧ world1.linkList = .ok [lo, eth0]
    ∧ (∀ l ∈ [lo, eth0], world1.addrList l FAMILY_V4 = .ok (hostAddrs1 l))
    ∧ (∃ i, (GetExtIface world1 node1).1 = .ok i)
    ∧ (GetExtIface world1 node1).1 = .ok { IPNet := net10_0_0_5, Link := eth0 } :=
  ⟨by decide, rfl, by decide,
    (C2_GetExtIface_finds_first_binding world1 node1
        [0, 0, 0, 0, 0, 0, 0, 0, 0, 0, 255, 255, 10, 0, 0, 5] [lo, eth0] hostAddrs1
        (by decide) rfl (by decide)).1.mpr
      ⟨eth0, by decide, { IPNet := net10_0_0_5, Label := "eth0" }, by decide, by decide⟩,
    by decide⟩

/-! ## `GetDefaultGatewayIPNet` and `GetDefaultGatewayMAC` -/

theorem GetDefaultGatewayIPNet_single (w : World) (extIface : Iface) (r : Route)
    (h : w.routeGet (IPv4 1 0 0 0) = .ok [r]) :
    GetDefaultGatewayIPNet w extIface
      = if r.LinkIndex ≠ extIface.Link.Index then
          .error "the route link index doesn't match the external interface link index"
        else .ok { IP := r.Gw, Mask := extIface.IPNet.Mask } := by
  simp [GetDefaultGatewayIPNet, h]

/-- C5 as written fails: with no route and with two routes the function returns one and
the same error, so no two different failures (`NoRoute`, `AmbiguousResult`) tell the two
cases apart. -/
theorem C5_zero_and_two_routes_same_error :
    worldNoRoute.routeGet (IPv4 1 0 0 0) = .ok []
    ∧ (∃ r1 r2, worldTwoRoutes.routeGet (IPv4 1 0 0 0) = .ok [r1, r2])
    ∧ GetDefaultGatewayIPNet worldNoRoute extIface1
        = .error "failed to determine a single default route for the cluster node"
    ∧ GetDefaultGatewayIPNet worldTwoRoutes extIface1
        = .error "failed to determine a single default route for the cluster node"
    ∧ ¬ ∃ noRoute ambiguousResult : String, noRoute ≠ ambiguousResult
        ∧ GetDefaultGatewayIPNet worldNoRoute extIface1 = .error noRoute
        ∧ GetDefaultGatewayIPNet worldTwoRoutes extIface1 = .error ambiguousResult := by
  have h0 : GetDefaultGatewayIPNet worldNoRoute extIface1
      = .error "failed to determine a single default route for the cluster node" := by decide
  have h2 : GetDefaultGatewayIPNet worldTwoRoutes extIface1
      = .error "failed to determine a single default route for the cluster node" := by decide
  refine ⟨rfl, ⟨_, _, rfl⟩, h0, h2, ?_⟩
  rintro ⟨a, b, hne, ha, hb⟩
  rw [h0] at ha
  rw [h2] at hb
  exact hne ((Except.error.inj ha).symm.trans (Except.error.inj hb))

/-- C5, amended: for every external interface and every successful route lookup whose
result has zero entries or two or more entries, `GetDefaultGatewayIPNet` returns an error
and no address; the error is the same in both cases, "failed to determine a single
default route for the cluster node". -/
theorem C5_GetDefaultGatewayIPNet_not_single_route (w : World) (extIface : Iface)
    (routes : List Route) (h : w.routeGet (IPv4 1 0 0 0) = .ok routes)
    (hlen : routes.length = 0 ∨ 2 ≤ routes.length) :
    GetDefaultGatewayIPNet w extIface
      = .error "failed to determine a single default route for the cluster node" := by
  have hne : routes.length ≠ 1 := by omega
  simp [GetDefaultGatewayIPNet, h, hne]

/-- C5, amended, on the example host with two routes. -/
theorem C5_GetDefaultGatewayIPNet_witness :
    GetDefaultGatewayIPNet worldTwoRoutes extIface1
      = .error "failed to determine a single default route for the cluster node" :=
  C5_GetDefaultGatewayIPNet_not_single_route worldTwoRoutes extIface1
    [{ LinkIndex := 2, Dst := none, Gw := some [10, 0, 0, 1] },
     { LinkIndex := 2, Dst := none, Gw := some [10, 0, 0, 2] }] rfl (by decide)

/-- C6: when the route lookup returns exactly one route `r`, `GetDefaultGatewayIPNet`
succeeds exactly when `r.LinkIndex` is the link index of the external interface, and
returns an error otherwise. On success the result has `r.Gw` as IP and the mask of the
external interface's address as mask, so anything computed from the mask (the prefix
length) is that of the external interface, and the result does not depend on the
destination prefix `Dst` of the route. -/
theorem C6_GetDefaultGatewayIPNet_single_route (w : World) (extIface : Iface) (r : Route)
    (h : w.routeGet (IPv4 1 0 0 0) = .ok [r]) :
    ((∃ g, GetDefaultGatewayIPNet w extIface = .ok g) ↔ r.LinkIndex = extIface.Link.Index)
    ∧ (r.LinkIndex ≠ extIface.Link.Index →
        GetDefaultGatewayIPNet w extIface
          = .error "the route link index doesn't match the external interface link index")
    ∧ (∀ g, GetDefaultGatewayIPNet w extIface = .ok g →
        g.IP = r.Gw ∧ g.Mask = extIface.IPNet.Mask
        ∧ ∀ prefixLen : IPMask → Int, prefixLen g.Mask = prefixLen extIface.IPNet.Mask)
    ∧ (∀ (w2 : World) (dst : Option IPNet),
        w2.routeGet (IPv4 1 0 0 0) = .ok [{ r with Dst := dst }] →
        GetDefaultGatewayIPNet w2 extIface = GetDefaultGatewayIPNet w extIface) := by
  have hw := GetDefaultGatewayIPNet_single w extIface r h
  refine ⟨?_, ?_, ?_, ?_⟩
  · rw [hw]
    by_cases hli : r.LinkIndex = extIface.Link.Index <;> simp [hli]
  · intro hli
    rw [hw, if_pos hli]
  · intro g hg
    rw [hw] at hg
    by_cases hli : r.LinkIndex = extIface.Link.Index
    · simp only [ne_eq, hli, not_true_eq_false, if_false, Except.ok.injEq] at hg
      subst hg
      exact ⟨rfl, rfl, fun _ => rfl⟩
    · simp [hli] at hg
  · intro w2 dst h2
    rw [hw, GetDefaultGatewayIPNet_single w2 extIface _ h2]

/-- C6 on the example host: the single route goes through `eth0` via 10.0.0.1, the
gateway network is 10.0.0.1 with the /24 mask of `eth0`. -/
theorem C6_GetDefaultGatewayIPNet_witness :
    world1.routeGet (IPv4 1 0 0 0) = .ok [{ LinkIndex := 2, Dst := none, Gw := some [10, 0, 0, 1] }]
    ∧ (∃ g, GetDefaultGatewayIPNet world1 extIface1 = .ok g)
    ∧ GetDefaultGatewayIPNet world1 extIface1
        = .ok { IP := some [10, 0, 0, 1], Mask := some [255, 255, 255, 0] }
    ∧ GetDefaultGatewayIPNet world1 { IPNet := net127_0_0_1, Link := lo }
        = .error "the route link index doesn't match the external interface link index" :=
  ⟨rfl,
    (C6_GetDefaultGatewayIPNet_single_route world1 extIface1
      { LinkIndex := 2, Dst := none, Gw := some [10, 0, 0, 1] } rfl).1.mpr (by decide),
    by decide,
    (C6_GetDefaultGatewayIPNet_single_route world1 { IPNet := net127_0_0_1, Link := lo }
      { LinkIndex := 2, Dst := none, Gw := some [10, 0, 0, 1] } rfl).2.1 (by decide)⟩

theorem macLoop_none (gwIP : IP) (ns : List Neigh)
    (h : ∀ ne ∈ ns, IPEqual ne.IP gwIP = false) :
    GetDefaultGatewayMAC.loop gwIP ns
      = .error
        "failed to retrieve the MAC of the default gateway for the cluster node external interface" := by
  induction ns with
  | nil => rfl
  | cons ne ns ih =>
    simp only [GetDefaultGatewayMAC.loop, h ne (List.mem_cons_self _ _), Bool.false_eq_true,
      if_false]
    exact ih (fun m hm => h m (List.mem_cons_of_mem _ hm))

theorem macLoop_ok (gwIP : IP) (ns : List Neigh) (mac : HardwareAddr)
    (h : GetDefaultGatewayMAC.loop gwIP ns = .ok mac) :
    ∃ (pre post : List Neigh) (ne : Neigh), ns = pre ++ ne :: post
      ∧ (∀ b ∈ pre, IPEqual b.IP gwIP = false)
      ∧ IPEqual ne.IP gwIP = true ∧ mac = ne.HardwareAddr := by
  induction ns with
  | nil => simp [GetDefaultGatewayMAC.loop] at h
  | cons ne ns ih =>
    cases hx : IPEqual ne.IP gwIP
    · simp only [GetDefaultGatewayMAC.loop, hx, Bool.false_eq_true, if_false] at h
      obtain ⟨pre, post, m, hsplit, hpre, hm, hmac⟩ := ih h
      refine ⟨ne :: pre, post, m, by simp [hsplit], ?_, hm, hmac⟩
      intro b hb
      rcases List.mem_cons.mp hb with hb | hb
      · exact hb ▸ hx
      · exact hpre b hb
    · simp only [GetDefaultGatewayMAC.loop, hx, if_true, Except.ok.injEq] at h
      exact ⟨[], ns, ne, rfl, by simp, hx, h.symm⟩

theorem macLoop_exists (gwIP : IP) (ns : List Neigh)
    (h : ∃ ne ∈ ns, IPEqual ne.IP gwIP = true) :
    ∃ mac, GetDefaultGatewayMAC.loop gwIP ns = .ok mac := by
  induction ns with
  | nil => simp at h
  | cons k ns ih =>
    cases hk : IPEqual k.IP gwIP
    · simp only [GetDefaultGatewayMAC.loop, hk, Bool.false_eq_true, if_false]
      obtain ⟨ne, hmem, hne⟩ := h
      rcases List.mem_cons.mp hmem with hmem | hmem
      · rw [hmem, hk] at hne
        exact Bool.noConfusion hne
      · exact ih ⟨ne, hmem, hne⟩
    · exact ⟨k.HardwareAddr, by simp [GetDefaultGatewayMAC.loop, hk]⟩

/-- C7: when the neighbour table of the external interface's index (IPv4 family) is read
as `ns`, `GetDefaultGatewayMAC` succeeds exactly when some entry of `ns` has an IP equal
to `gwIP` (in the sense of `net.IP.Equal`); it then returns the hardware address of the
first such entry; when no entry matches it returns an error and no MAC. -/
theorem C7_GetDefaultGatewayMAC_first_neighbour (w : World) (extIface : Iface) (gwIP : IP)
    (ns : List Neigh) (h : w.neighList extIface.Link.Index FAMILY_V4 = .ok ns) :
    ((∃ mac, GetDefaultGatewayMAC w extIface gwIP = .ok mac) ↔
      ∃ ne ∈ ns, IPEqual ne.IP gwIP = true)
    ∧ (∀ mac, GetDefaultGatewayMAC w extIface gwIP = .ok mac →
        ∃ (pre post : List Neigh) (ne : Neigh), ns = pre ++ ne :: post
          ∧ (∀ b ∈ pre, IPEqual b.IP gwIP = false)
          ∧ IPEqual ne.IP gwIP = true ∧ mac = ne.HardwareAddr)
    ∧ ((∀ ne ∈ ns, IPEqual ne.IP gwIP = false) →
        GetDefaultGatewayMAC w extIface gwIP
          = .error
            "failed to retrieve the MAC of the default gateway for the cluster node external interface") := by
  have hw : GetDefaultGatewayMAC w extIface gwIP = GetDefaultGatewayMAC.loop gwIP ns := by
    simp [GetDefaultGatewayMAC, h]
  rw [hw]
  refine ⟨⟨?_, ?_⟩, macLoop_ok gwIP ns, macLoop_none gwIP ns⟩
  · rintro ⟨mac, hmac⟩
    obtain ⟨pre, post, ne, hsplit, -, hne, -⟩ := macLoop_ok gwIP ns mac hmac
    exact ⟨ne, by simp [hsplit], hne⟩
  · exact macLoop_exists gwIP ns

/-- C7 on the example host: the gateway 10.0.0.1 is the second neighbour of `eth0`; its
hardware address is returned; on a host whose table lacks it the call fails. -/
theorem C7_GetDefaultGatewayMAC_witness :
    (∃ mac, GetDefaultGatewayMAC world1 extIface1 (some [10, 0, 0, 1]) = .ok mac)
    ∧ GetDefaultGatewayMAC world1 extIface1 (some [10, 0, 0, 1]) = .ok (some [2, 0, 0, 0, 0, 1])
    ∧ GetDefaultGatewayMAC worldNoNeigh extIface1 (some [10, 0, 0, 1])
        = .error
          "failed to retrieve the MAC of the default gateway for the cluster node external interface" :=
  ⟨(C7_GetDefaultGatewayMAC_first_neighbour world1 extIface1 (some [10, 0, 0, 1]) _ rfl).1.mpr
      ⟨{ LinkIndex := 2, IP := some [10, 0, 0, 1], HardwareAddr := some [2, 0, 0, 0, 0, 1] },
        by decide, by decide⟩,
    by decide,
    (C7_GetDefaultGatewayMAC_first_neighbour worldNoNeigh extIface1 (some [10, 0, 0, 1]) _
      rfl).2.2 (by decide)⟩

/-! ## `LoadConfig` -/

theorem LoadConfig_of_steps (w : World) (r : StepResults) (h : StepsSucceed w r)
    (Conf : Option Configuration) :
    LoadConfig w Conf
      = (none, some {
          Node := r.node
          PodCIDR := r.podCIDR
          PodGwInfo := { IPNet := r.podGwIPNet, MAC := none }
          ExtIface := r.extIface
          NodeVtepIPNet := r.nodeVtepIPNet
          NodeGwInfo := { IPNet := r.nodeGwIPNet, MAC := r.nodeGwMAC } }) := by
  obtain ⟨h1, h2, h3, h4, h5, h6, h7, h8, h9⟩ := h
  simp only [LoadConfig, h1, h2, h3, h4, h5, h6, h7, h8, h9]

theorem LoadConfig_cases (w : World) :
    (∃ r, StepsSucceed w r) ∨ (∃ e, ∀ Conf, LoadConfig w Conf = (some e, Conf)) := by
  cases h1 : w.inClusterConfig with
  | error e => exact Or.inr ⟨e, fun Conf => by simp only [LoadConfig, h1]⟩
  | ok clusterConfig =>
  cases h2 : w.newForConfig clusterConfig with
  | error e => exact Or.inr ⟨e, fun Conf => by simp only [LoadConfig, h1, h2]⟩
  | ok cset =>
  cases h3 : Get w cset w.nodeName with
  | error e => exact Or.inr ⟨e, fun Conf => by simp only [LoadConfig, h1, h2, h3]⟩
  | ok node =>
  cases h4 : w.ParsePodCIDR node with
  | error e => exact Or.inr ⟨e, fun Conf => by simp only [LoadConfig, h1, h2, h3, h4]⟩
  | ok podCIDR =>
  cases h5 : w.CalcPodDefaultGatewayIPNet podCIDR with
  | error e => exact Or.inr ⟨e, fun Conf => by simp only [LoadConfig, h1, h2, h3, h4, h5]⟩
  | ok podGwIPNet =>
  cases h6 : (GetExtIface w node).1 with
  | error e => exact Or.inr ⟨e, fun Conf => by simp only [LoadConfig, h1, h2, h3, h4, h5, h6]⟩
  | ok extIface =>
  cases h7 : w.CalcVtepIPNet node with
  | error e =>
    exact Or.inr ⟨e, fun Conf => by simp only [LoadConfig, h1, h2, h3, h4, h5, h6, h7]⟩
  | ok nodeVtepIPNet =>
  cases h8 : GetDefaultGatewayIPNet w extIface with
  | error e =>
    exact Or.inr ⟨e, fun Conf => by simp only [LoadConfig, h1, h2, h3, h4, h5, h6, h7, h8]⟩
  | ok nodeGwIPNet =>
  cases h9 : GetDefaultGatewayMAC w extIface nodeGwIPNet.IP with
  | error e =>
    exact Or.inr ⟨e, fun Conf => by simp only [LoadConfig, h1, h2, h3, h4, h5, h6, h7, h8, h9]⟩
  | ok nodeGwMAC =>
    exact Or.inl ⟨⟨clusterConfig, cset, node, podCIDR, podGwIPNet, extIface, nodeVtepIPNet,
      nodeGwIPNet, nodeGwMAC⟩, h1, h2, h3, h4, h5, h6, h7, h8, h9⟩

theorem LoadConfig_nil_iff (w : World) (Conf : Option Configuration) :
    (LoadConfig w Conf).1 = none ↔ ∃ r, StepsSucceed w r := by
  constructor
  · intro h
    rcases LoadConfig_cases w with hs | ⟨e, he⟩
    · exact hs
    · rw [he Conf] at h
      exact absurd h (by simp)
  · rintro ⟨r, hr⟩
    rw [LoadConfig_of_steps w r hr Conf]

/-- C1: `LoadConfig` returns nil exactly when every step succeeds (client construction,
`Get`, `ParsePodCIDR`, `CalcPodDefaultGatewayIPNet`, `GetExtIface`, `CalcVtepIPNet`,
`GetDefaultGatewayIPNet`, `GetDefaultGatewayMAC`). The package variable `Conf` is assigned
(it ends as one and the same new value whatever it held before) exactly in that case, and
the value assigned is the complete struct built from the step results. Whenever
`LoadConfig` returns an error, `Conf` is the value it had before the call. -/
theorem C1_LoadConfig_publishes_all_or_nothing (w : World) (Conf0 : Option Configuration) :
    ((LoadConfig w Conf0).1 = none ↔ ∃ r, StepsSucceed w r)
    ∧ ((∃ c, ∀ Conf1, (LoadConfig w Conf1).2 = some c) ↔ (LoadConfig w Conf0).1 = none)
    ∧ (∀ e, (LoadConfig w Conf0).1 = some e → (LoadConfig w Conf0).2 = Conf0)
    ∧ (∀ r, StepsSucceed w r →
        LoadConfig w Conf0
          = (none, some {
              Node := r.node
              PodCIDR := r.podCIDR
              PodGwInfo := { IPNet := r.podGwIPNet, MAC := none }
              ExtIface := r.extIface
              NodeVtepIPNet := r.nodeVtepIPNet
              NodeGwInfo := { IPNet := r.nodeGwIPNet, MAC := r.nodeGwMAC } })) := by
  refine ⟨LoadConfig_nil_iff w Conf0, ⟨?_, ?_⟩, ?_,
    fun r hr => LoadConfig_of_steps w r hr Conf0⟩
  · rintro ⟨c, hc⟩
    rcases LoadConfig_cases w with hs | ⟨e, he⟩
    · exact (LoadConfig_nil_iff w Conf0).mpr hs
    · have := hc none
      rw [he none] at this
      exact absurd this (by simp)
  · intro h
    obtain ⟨r, hr⟩ := (LoadConfig_nil_iff w Conf0).mp h
    exact ⟨_, fun Conf1 => by rw [LoadConfig_of_steps w r hr Conf1]⟩
  · intro e h
    rcases LoadConfig_cases w with ⟨r, hr⟩ | ⟨e2, he⟩
    · rw [LoadConfig_of_steps w r hr Conf0] at h
      exact absurd h (by simp)
    · rw [he Conf0]

/-- C1 on the example host, which held an older configuration: when every step succeeds
the new configuration replaces it; when the neighbour table lacks the gateway,
`LoadConfig` returns the error and the older configuration stays. -/
theorem C1_LoadConfig_witness :
    StepsSucceed world1 steps1
    ∧ (LoadConfig world1 (some oldConf)).1 = none
    ∧ (LoadConfig world1 (some oldConf)).2 ≠ some oldConf
    ∧ (LoadConfig worldNoNeigh (some oldConf)).1
        = some
          "failed to retrieve the MAC of the default gateway for the cluster node external interface"
    ∧ (LoadConfig worldNoNeigh (some oldConf)).2 = some oldConf :=
  ⟨by decide,
    (C1_LoadConfig_publishes_all_or_nothing world1 (some oldConf)).1.mpr ⟨steps1, by decide⟩,
    by decide,
    by decide,
    (C1_LoadConfig_publishes_all_or_nothing worldNoNeigh (some oldConf)).2.2.1
      "failed to retrieve the MAC of the default gateway for the cluster node external interface"
      (by decide)⟩

/-- C9: once the clientset `cset` the steps work with is built, `LoadConfig` runs `Get`,
`ParsePodCIDR`, `CalcPodDefaultGatewayIPNet`, `GetExtIface`, `CalcVtepIPNet`,
`GetDefaultGatewayIPNet`, `GetDefaultGatewayMAC` in this order and stops at the first
failure: when a step fails with `e` and the steps before it succeeded, `LoadConfig`
returns `e`, whatever the later steps would return (nothing is assumed of them), and
`Conf` keeps its value; when all seven succeed it returns nil. -/
theorem C9_LoadConfig_fails_at_first_failing_step (w : World)
    (Conf0 : Option Configuration) (clusterConfig : RestConfig) (cset : Clientset)
    (hcfg : w.inClusterConfig = .ok clusterConfig)
    (hcset : w.newForConfig clusterConfig = .ok cset) :
    (∀ e, Get w cset w.nodeName = .error e → LoadConfig w Conf0 = (some e, Conf0))
    ∧ (∀ node e, Get w cset w.nodeName = .ok node →
        w.ParsePodCIDR node = .error e → LoadConfig w Conf0 = (some e, Conf0))
    ∧ (∀ node podCIDR e, Get w cset w.nodeName = .ok node →
        w.ParsePodCIDR node = .ok podCIDR →
        w.CalcPodDefaultGatewayIPNet podCIDR = .error e →
        LoadConfig w Conf0 = (some e, Conf0))
    ∧ (∀ node podCIDR podGwIPNet e, Get w cset w.nodeName = .ok node →
        w.ParsePodCIDR node = .ok podCIDR →
        w.CalcPodDefaultGatewayIPNet podCIDR = .ok podGwIPNet →
        (GetExtIface w node).1 = .error e →
        LoadConfig w Conf0 = (some e, Conf0))
    ∧ (∀ node podCIDR podGwIPNet extIface e, Get w cset w.nodeName = .ok node →
        w.ParsePodCIDR node = .ok podCIDR →
        w.CalcPodDefaultGatewayIPNet podCIDR = .ok podGwIPNet →
        (GetExtIface w node).1 = .ok extIface →
        w.CalcVtepIPNet node = .error e →
        LoadConfig w Conf0 = (some e, Conf0))
    ∧ (∀ node podCIDR podGwIPNet extIface nodeVtepIPNet e,
        Get w cset w.nodeName = .ok node →
        w.ParsePodCIDR node = .ok podCIDR →
        w.CalcPodDefaultGatewayIPNet podCIDR = .ok podGwIPNet →
        (GetExtIface w node).1 = .ok extIface →
        w.CalcVtepIPNet node = .ok nodeVtepIPNet →
        GetDefaultGatewayIPNet w extIface = .error e →
        LoadConfig w Conf0 = (some e, Conf0))
    ∧ (∀ node podCIDR podGwIPNet extIface nodeVtepIPNet nodeGwIPNet e,
        Get w cset w.nodeName = .ok node →
        w.ParsePodCIDR node = .ok podCIDR →
        w.CalcPodDefaultGatewayIPNet podCIDR = .ok podGwIPNet →
        (GetExtIface w node).1 = .ok extIface →
        w.CalcVtepIPNet node = .ok nodeVtepIPNet →
        GetDefaultGatewayIPNet w extIface = .ok nodeGwIPNet →
        GetDefaultGatewayMAC w extIface nodeGwIPNet.IP = .error e →
        LoadConfig w Conf0 = (some e, Conf0))
    ∧ (∀ node podCIDR podGwIPNet extIface nodeVtepIPNet nodeGwIPNet nodeGwMAC,
        Get w cset w.nodeName = .ok node →
        w.ParsePodCIDR node = .ok podCIDR →
        w.CalcPodDefaultGatewayIPNet podCIDR = .ok podGwIPNet →
        (GetExtIface w node).1 = .ok extIface →
        w.CalcVtepIPNet node = .ok nodeVtepIPNet →
        GetDefaultGatewayIPNet w extIface = .ok nodeGwIPNet →
        GetDefaultGatewayMAC w extIface nodeGwIPNet.IP = .ok nodeGwMAC →
        (LoadConfig w Conf0).1 = none) := by
  refine ⟨?_, ?_, ?_, ?_, ?_, ?_, ?_, ?_⟩
  · intro e h3
    simp only [LoadConfig, hcfg, hcset, h3]
  · intro node e h3 h4
    simp only [LoadConfig, hcfg, hcset, h3, h4]
  · intro node podCIDR e h3 h4 h5
    simp only [LoadConfig, hcfg, hcset, h3, h4, h5]
  · intro node podCIDR podGwIPNet e h3 h4 h5 h6
    simp only [LoadConfig, hcfg, hcset, h3, h4, h5, h6]
  · intro node podCIDR podGwIPNet extIface e h3 h4 h5 h6 h7
    simp only [LoadConfig, hcfg, hcset, h3, h4, h5, h6, h7]
  · intro node podCIDR podGwIPNet extIface nodeVtepIPNet e h3 h4 h5 h6 h7 h8
    simp only [LoadConfig, hcfg, hcset, h3, h4, h5, h6, h7, h8]
  · intro node podCIDR podGwIPNet extIface nodeVtepIPNet nodeGwIPNet e h3 h4 h5 h6 h7 h8 h9
    simp only [LoadConfig, hcfg, hcset, h3, h4, h5, h6, h7, h8, h9]
  · intro node podCIDR podGwIPNet extIface nodeVtepIPNet nodeGwIPNet nodeGwMAC
      h3 h4 h5 h6 h7 h8 h9
    simp only [LoadConfig, hcfg, hcset, h3, h4, h5, h6, h7, h8, h9]

/-- C9 on the example host when both `CalcVtepIPNet` and the route lookup fail: the error
returned is that of `CalcVtepIPNet`, the earlier of the two steps, and the outcome is the
one of the host on which the route lookup would succeed. -/
theorem C9_LoadConfig_witness :
    worldVtepAndRoutesFail.CalcVtepIPNet node1 = .error "vtep derivation failed"
    ∧ GetDefaultGatewayIPNet worldVtepAndRoutesFail extIface1
        = .error "failed to determine a single default route for the cluster node"
    ∧ LoadConfig worldVtepAndRoutesFail (some oldConf)
        = (some "vtep derivation failed", some oldConf)
    ∧ (∃ g, GetDefaultGatewayIPNet worldVtepFails extIface1 = .ok g)
    ∧ LoadConfig worldVtepFails (some oldConf)
        = LoadConfig worldVtepAndRoutesFail (some oldConf) :=
  ⟨rfl, by decide,
    (C9_LoadConfig_fails_at_first_failing_step worldVtepAndRoutesFail (some oldConf)
      steps1.clusterConfig steps1.cset rfl rfl).2.2.2.2.1
      node1 steps1.podCIDR steps1.podGwIPNet extIface1 "vtep derivation failed"
      (by decide) rfl rfl (by decide) rfl,
    ⟨{ IP := some [10, 0, 0, 1], Mask := some [255, 255, 255, 0] }, by decide⟩,
    by decide⟩

/-- C10: when `LoadConfig` returns nil, `Conf` holds a configuration `c` made of the step
results: `c.Node` is the node `Get` returned, `c.PodCIDR` the result of `ParsePodCIDR` on
it, `c.PodGwInfo.IPNet` the result of `CalcPodDefaultGatewayIPNet` on that CIDR and
`c.PodGwInfo.MAC` nil, `c.ExtIface` the result of `GetExtIface`, `c.NodeVtepIPNet` the
result of `CalcVtepIPNet`, `c.NodeGwInfo.IPNet` the result of `GetDefaultGatewayIPNet` on
`c.ExtIface`, and `c.NodeGwInfo.MAC` the result of `GetDefaultGatewayMAC` on `c.ExtIface`
and the IP of `c.NodeGwInfo.IPNet`. -/
theorem C10_LoadConfig_publishes_step_results (w : World) (Conf0 : Option Configuration)
    (h : (LoadConfig w Conf0).1 = none) :
    ∃ (clusterConfig : RestConfig) (cset : Clientset) (c : Configuration),
      w.inClusterConfig = .ok clusterConfig
      ∧ w.newForConfig clusterConfig = .ok cset
      ∧ (LoadConfig w Conf0).2 = some c
      ∧ Get w cset w.nodeName = .ok c.Node
      ∧ w.ParsePodCIDR c.Node = .ok c.PodCIDR
      ∧ w.CalcPodDefaultGatewayIPNet c.PodCIDR = .ok c.PodGwInfo.IPNet
      ∧ c.PodGwInfo.MAC = none
      ∧ (GetExtIface w c.Node).1 = .ok c.ExtIface
      ∧ w.CalcVtepIPNet c.Node = .ok c.NodeVtepIPNet
      ∧ GetDefaultGatewayIPNet w c.ExtIface = .ok c.NodeGwInfo.IPNet
      ∧ GetDefaultGatewayMAC w c.ExtIface c.NodeGwInfo.IPNet.IP = .ok c.NodeGwInfo.MAC := by
  obtain ⟨r, hr⟩ := (LoadConfig_nil_iff w Conf0).mp h
  have hload := LoadConfig_of_steps w r hr Conf0
  obtain ⟨h1, h2, h3, h4, h5, h6, h7, h8, h9⟩ := hr
  exact ⟨r.clusterConfig, r.cset,
    { Node := r.node
      PodCIDR := r.podCIDR
      PodGwInfo := { IPNet := r.podGwIPNet, MAC := none }
      ExtIface := r.extIface
      NodeVtepIPNet := r.nodeVtepIPNet
      NodeGwInfo := { IPNet := r.nodeGwIPNet, MAC := r.nodeGwMAC } },
    h1, h2, by rw [hload], h3, h4, h5, rfl, h6, h7, h8, h9⟩

/-- C10 on the example host: the published configuration, field by field. -/
theorem C10_LoadConfig_witness :
    (LoadConfig world1 none).1 = none
    ∧ (∃ c, (LoadConfig world1 none).2 = some c ∧ c.PodGwInfo.MAC = none)
    ∧ (LoadConfig world1 none).2
        = some {
            Node := node1
            PodCIDR := { IP := some [10, 244, 3, 0], Mask := some [255, 255, 255, 0] }
            PodGwInfo :=
              { IPNet := { IP := some [10, 244, 3, 1], Mask := some [255, 255, 255, 0] },
                MAC := none }
            ExtIface := { IPNet := net10_0_0_5, Link := eth0 }
            NodeVtepIPNet := { IP := some [10, 18, 0, 5], Mask := some [255, 255, 0, 0] }
            NodeGwInfo :=
              { IPNet := { IP := some [10, 0, 0, 1], Mask := some [255, 255, 255, 0] },
                MAC := some [2, 0, 0, 0, 0, 1] } } :=
  ⟨by decide,
    (C10_LoadConfig_publishes_step_results world1 none (by decide)).elim
      (fun _ h => h.elim (fun _ h2 => h2.elim (fun c hc => ⟨c, hc.2.2.1, hc.2.2.2.2.2.2.1⟩))),
    by decide⟩

end Polykube
